import Mathlib

/-!
# Verification of the CPU-optimized-backend launcher

A shallow embedding, in Lean 4, of the core of the `cpu_optimized_app`
repository (files `src/cpu_detection.rs`, `src/lib_loader.rs`, `src/main.rs`,
`src/error.rs`), together with theorems settling the specification claims
about it.

Ambient process state (environment variables, the filesystem, the dynamic
loader, CPUID availability) is passed explicitly as parameters, so every
function here is a pure counterpart of the corresponding Rust function.
Rust `String` values are Lean `String`s; the handful of `str` operations the
code uses (`split` on a single character, `replace` of the single-character
pattern `"."`, `starts_with`, `trim`, `lines`) are re-implemented
character-by-character below so that they compute by kernel reduction.
-/

namespace CpuOptimizedApp

/-! ## Character-level string primitives (Rust `str` semantics) -/

/-- `s.replace(".", "_")` from Rust: the pattern is a single character, so the
replacement is a per-character map. Used in `find_library`. -/
def normSep (s : String) : String :=
  String.mk (s.data.map (fun c => if c = '.' then '_' else c))

/-- Helper for `rustSplit`: split a character list at every occurrence of
`sep`, keeping empty segments, as Rust's `str::split(char)` does. -/
def splitAuxChar (sep : Char) : List Char → List Char → List (List Char)
  | [], acc => [acc.reverse]
  | c :: cs, acc =>
    if c = sep then acc.reverse :: splitAuxChar sep cs []
    else splitAuxChar sep cs (c :: acc)

/-- Rust `s.split(sep)` collected to a list. On the empty string it yields
`[""]`, never the empty list, exactly like the Rust iterator. -/
def rustSplit (sep : Char) (s : String) : List String :=
  (splitAuxChar sep s.data []).map String.mk

/-- Helper for `rustStartsWith`, structural on both lists. -/
def startsWithChars : List Char → List Char → Bool
  | _, [] => true
  | [], _ :: _ => false
  | c :: cs, p :: ps => c == p && startsWithChars cs ps

/-- Rust `s.starts_with(pat)` for a string pattern. -/
def rustStartsWith (s pat : String) : Bool :=
  startsWithChars s.data pat.data

/-- The ASCII whitespace characters relevant to `/proc/cpuinfo` parsing;
Rust's `char::is_whitespace` also accepts further Unicode whitespace, which
never occurs in the inputs modelled here. -/
def isRustWs (c : Char) : Bool :=
  c == ' ' || c == '\t' || c == '\n' || c == '\r'

/-- Rust `s.trim()`: strip leading and trailing whitespace. -/
def rustTrim (s : String) : String :=
  String.mk (((s.data.dropWhile isRustWs).reverse.dropWhile isRustWs).reverse)

/-- Strip one trailing carriage return, as Rust `str::lines` does per line. -/
def stripCR (l : String) : String :=
  match l.data.getLast? with
  | some c => if c = '\r' then String.mk l.data.dropLast else l
  | none => l

/-- Rust `s.lines()` collected to a list: split on `'\n'`, drop a final empty
segment produced by a trailing newline, and strip one `'\r'` per line. -/
def rustLines (s : String) : List String :=
  let raw := rustSplit '\n' s
  let raw := match raw.getLast? with
    | some last => if last = "" then raw.dropLast else raw
    | none => raw
  raw.map stripCR

/-! ## `src/error.rs` -/

/-- The `AppError` enum. The payload of each variant is the formatted
message text. -/
inductive AppError
  | IoError (msg : String)
  | PathError (msg : String)
  | LibraryError (msg : String)
  | FunctionCallError (msg : String)
  | CpuDetectionError (msg : String)
  | CoreLibError (msg : String)
  | Unknown (msg : String)
deriving DecidableEq, Repr

/-- The `Display` rendering generated by `thiserror`'s `#[error(...)]`
attributes on `AppError`. -/
def AppError.message : AppError → String
  | .IoError m => "Ошибка ввода-вывода: " ++ m
  | .PathError m => "Ошибка пути: " ++ m
  | .LibraryError m => "Ошибка загрузки библиотеки: " ++ m
  | .FunctionCallError m => "Ошибка вызова функции: " ++ m
  | .CpuDetectionError m => "Ошибка определения процессора: " ++ m
  | .CoreLibError m => "Ошибка в core_lib: " ++ m
  | .Unknown m => "Неизвестная ошибка: " ++ m

/-! ## `src/cpu_detection.rs` -/

/-- The `CpuInfo` struct. -/
structure CpuInfo where
  vendor : String
  model : String
  features : List String
deriving DecidableEq, Repr

/-- Environment variables read by the program. A field is `some v` when the
variable is set (to valid Unicode, so Rust's `env::var` returns `Ok`). -/
structure EnvVars where
  cpuVendor : Option String
  cpuFeatures : Option String
  cpuModel : Option String
  forceLibPath : Option String
  allocator : Option String

/-- The `has_sse42` / `has_avx` accessors of raw-cpuid's `FeatureInfo`. -/
structure FeatureInfo where
  has_sse42 : Bool
  has_avx : Bool
deriving DecidableEq, Repr

/-- The `has_avx2` accessor of raw-cpuid's `ExtendedFeatures`. -/
structure ExtendedFeatures where
  has_avx2 : Bool
deriving DecidableEq, Repr

/-- What the four CPUID queries of `detect_x86_64` return on this host;
`none` models a query reporting "unavailable". -/
structure CpuIdSt where
  vendorInfo : Option String
  brandString : Option String
  featureInfo : Option FeatureInfo
  extendedFeatures : Option ExtendedFeatures
deriving DecidableEq, Repr

/-- `detect_x86_64`: four CPUID queries, each fatal when unavailable, then
feature tags pushed in the order SSE4.2, AVX, AVX2. -/
def detect_x86_64 (cpuid : CpuIdSt) : Except AppError CpuInfo :=
  match cpuid.vendorInfo with
  | none => .error (.CpuDetectionError "Не удалось получить информацию о производителе")
  | some vendor_info =>
    match cpuid.brandString with
    | none => .error (.CpuDetectionError "Не удалось получить информацию о модели процессора")
    | some processor_info =>
      match cpuid.featureInfo with
      | none => .error (.CpuDetectionError "Не удалось получить информацию о поддерживаемых инструкциях")
      | some feature_info =>
        match cpuid.extendedFeatures with
        | none => .error (.CpuDetectionError "Не удалось получить расширенную информацию о поддерживаемых инструкциях")
        | some extended_features =>
          let features : List String :=
            (if feature_info.has_sse42 then ["sse4.2"] else []) ++
            (if feature_info.has_avx then ["avx"] else []) ++
            (if extended_features.has_avx2 then ["avx2"] else [])
          .ok { vendor := vendor_info, model := processor_info, features := features }

/-- The body of the `for line in cpuinfo.lines()` loop of `detect_aarch64`:
two mutable variables `(vendor, model)` threaded through the lines. A
`Hardware`-prefixed line overwrites `vendor`; a `model name`- or
`Processor`-prefixed line overwrites `model`; a matching line without a
`':'` changes nothing (the `split(':').nth(1)` is `None`). -/
def cpuinfoStep (vm : String × String) (line : String) : String × String :=
  if rustStartsWith line "Hardware" then
    match (rustSplit ':' line)[1]? with
    | some hw => (rustTrim hw, vm.2)
    | none => vm
  else if rustStartsWith line "model name" || rustStartsWith line "Processor" then
    match (rustSplit ':' line)[1]? with
    | some mdl => (vm.1, rustTrim mdl)
    | none => vm
  else vm

/-- The `for line in cpuinfo.lines()` loop of `detect_aarch64`, starting from
the defaults `("ARM", "Unknown ARM Processor")`. -/
def parseCpuinfoLines (ls : List String) : String × String :=
  ls.foldl cpuinfoStep ("ARM", "Unknown ARM Processor")

/-- `detect_aarch64`. `cpuinfoFile` is the content of `/proc/cpuinfo` when it
is readable, `none` otherwise; the read only happens under
`cfg(target_os = "linux")`. -/
def detect_aarch64 (os : String) (cpuinfoFile : Option String) : Except AppError CpuInfo :=
  if os == "linux" then
    match cpuinfoFile with
    | some cpuinfo =>
      let vm := parseCpuinfoLines (rustLines cpuinfo)
      .ok { vendor := vm.1, model := vm.2, features := ["neon"] }
    | none =>
      .ok { vendor := "ARM", model := "Unknown ARM Processor", features := ["neon"] }
  else
    .ok { vendor := "ARM", model := "Unknown ARM Processor", features := ["neon"] }

/-- `detect_cpu`: the environment override path (both `CPU_VENDOR` and
`CPU_FEATURES` set) short-circuits all probing; otherwise dispatch on the
host architecture. -/
def detect_cpu (env : EnvVars) (arch os : String) (cpuid : CpuIdSt)
    (cpuinfoFile : Option String) : Except AppError CpuInfo :=
  match env.cpuVendor, env.cpuFeatures with
  | some vendor, some features =>
    .ok { vendor := vendor,
          model := env.cpuModel.getD "Unknown",
          features := rustSplit ',' features }
  | _, _ =>
    if arch == "x86_64" then detect_x86_64 cpuid
    else if arch == "aarch64" then detect_aarch64 os cpuinfoFile
    else .error (.CpuDetectionError ("Неподдерживаемая архитектура: " ++ arch))

/-! ## `src/lib_loader.rs` -/

/-- `priority_features` in `find_library`: the fixed best-to-worst candidate
list. -/
def priority_features : List String := ["avx2", "avx", "sse4.2", "neon", "base"]

/-- The `is_supported` test of `find_library`: `"base"` always passes;
otherwise some capability entry, with `'.'` replaced by `'_'`, must equal
the candidate tag. -/
def isSupported (feature : String) (cpu_features : List String) : Bool :=
  feature == "base" || cpu_features.any (fun f => normSep f == feature)

/-- Library extension chosen from `std::env::consts::OS`. -/
def lib_ext (os : String) : String :=
  if os == "windows" then "dll" else if os == "macos" then "dylib" else "so"

/-- The expected module filename: `{arch}_{feature}_{allocator}` plus the
platform prefix (none on Windows, `lib` elsewhere) and extension. -/
def libFileName (os arch feature allocator : String) : String :=
  let lib_name := arch ++ "_" ++ feature ++ "_" ++ allocator
  if os == "windows" then lib_name ++ "." ++ lib_ext os
  else "lib" ++ lib_name ++ "." ++ lib_ext os

/-- The `for feature in priority_features` loop of `find_library`:
first supported candidate whose file exists wins; unsupported or missing
candidates are skipped. `fileExists` is the filesystem's answer to
`Path::exists` on full paths inside `libDir`. -/
def searchLibs (os arch allocator libDir : String) (cpu_features : List String)
    (fileExists : String → Bool) : List String → Option String
  | [] => none
  | feature :: rest =>
    if isSupported feature cpu_features then
      let lib_path := libDir ++ "/" ++ libFileName os arch feature allocator
      if fileExists lib_path then some lib_path
      else searchLibs os arch allocator libDir cpu_features fileExists rest
    else searchLibs os arch allocator libDir cpu_features fileExists rest

/-- `find_library`. `libDir` is the `lib` directory beside the executable and
`libDirExists` the filesystem's answer to its `exists()` check. -/
def find_library (os arch libDir : String) (libDirExists : Bool)
    (fileExists : String → Bool) (cpu_features : List String)
    (allocator : String) : Except AppError String :=
  if libDirExists then
    match searchLibs os arch allocator libDir cpu_features fileExists priority_features with
    | some lib_path => .ok lib_path
    | none => .error (.LibraryError
        ("Не удалось найти подходящую библиотеку в директории: " ++ libDir))
  else
    .error (.PathError ("Директория библиотек не найдена: " ++ libDir))

/-- `load_and_run`. The three ambient effects are passed in: `openLib`
models `Library::new` (error text on failure), `findRunSym` models
`lib.get(b"run")`, and `entry` models invoking the resolved `run` function. -/
def load_and_run (openLib : String → Except String Unit)
    (findRunSym : String → Except String Unit)
    (entry : String → List String → Except String Int)
    (lib_path : String) (args : List String) : Except AppError Int :=
  match openLib lib_path with
  | .error e => .error (.LibraryError
      ("Не удалось загрузить библиотеку " ++ lib_path ++ ": " ++ e))
  | .ok _ =>
    match findRunSym lib_path with
    | .error e => .error (.FunctionCallError
        ("Не удалось найти функцию run в библиотеке: " ++ e))
    | .ok _ =>
      match entry lib_path args with
      | .error e => .error (.CoreLibError e)
      | .ok result => .ok result

/-! ## `src/main.rs` -/

/-- The whole ambient state one process run observes. -/
structure World where
  env : EnvVars
  arch : String
  os : String
  cpuid : CpuIdSt
  cpuinfoFile : Option String
  libDir : String
  libDirExists : Bool
  fileExists : String → Bool
  pathExists : String → Bool
  openLib : String → Except String Unit
  findRunSym : String → Except String Unit
  entry : String → List String → Except String Int

/-- The `let lib_path = if let Ok(forced_lib) = env::var("FORCE_LIB_PATH") ...`
expression of `run`: a set forced path is validated for existence and used
directly; otherwise `find_library` is consulted with the `ALLOCATOR`
variable (default `"system"`). -/
def resolve_lib_path (w : World) (features : List String) : Except AppError String :=
  match w.env.forceLibPath with
  | some forced_lib =>
    if w.pathExists forced_lib then .ok forced_lib
    else .error (.PathError
        ("Принудительно указанная библиотека не найдена: " ++ forced_lib))
  | none =>
    find_library w.os w.arch w.libDir w.libDirExists w.fileExists features
      (w.env.allocator.getD "system")

/-- `run` of `main.rs`. `print_system_info` only writes diagnostics (its
only fallible step, `get_libc_version`, returns `Ok` on every `cfg` branch),
so it is omitted; the three `?` operators are the explicit matches. -/
def run (w : World) (args : List String) : Except AppError Int :=
  match detect_cpu w.env w.arch w.os w.cpuid w.cpuinfoFile with
  | .error e => .error e
  | .ok cpu_info =>
    match resolve_lib_path w cpu_info.features with
    | .error e => .error e
    | .ok lib_path => load_and_run w.openLib w.findRunSym w.entry lib_path args

/-- `main`: on `Ok(exit_code)` the process exits with that code and nothing
is written to the diagnostic stream by `main` itself; on `Err(err)` it
writes `Ошибка: {err}` and exits with the fixed code `1`. The returned pair
is (process exit code, diagnostic line written by `main`). -/
def mainExit (w : World) (args : List String) : Int × Option String :=
  match run w args with
  | .ok exit_code => (exit_code, none)
  | .error err => (1, some ("Ошибка: " ++ err.message))

/-- A sample world for concrete instantiations: a forced path that exists,
a loader where everything succeeds, an entry point returning exit code 3. -/
def sampleWorldOk : World :=
  { env := ⟨some "V", some "avx2", none, some "/forced.so", none⟩,
    arch := "x86_64", os := "linux", cpuid := ⟨none, none, none, none⟩,
    cpuinfoFile := none, libDir := "/opt/app/lib", libDirExists := true,
    fileExists := fun _ => true, pathExists := fun _ => true,
    openLib := fun _ => .ok (), findRunSym := fun _ => .ok (),
    entry := fun _ _ => .ok 3 }

/-- A sample world whose forced path does not exist on the filesystem. -/
def sampleWorldMissingForced : World :=
  { env := ⟨some "V", some "avx2", none, some "/missing.so", none⟩,
    arch := "x86_64", os := "linux", cpuid := ⟨none, none, none, none⟩,
    cpuinfoFile := none, libDir := "/opt/app/lib", libDirExists := true,
    fileExists := fun _ => true, pathExists := fun _ => false,
    openLib := fun _ => .ok (), findRunSym := fun _ => .ok (),
    entry := fun _ _ => .ok 0 }

/-! ## Specification-side readings of the `/proc/cpuinfo` loop

Used to state, against `parseCpuinfoLines`, which matching line determines
each field. -/

/-- The vendor field a single line contributes: a `Hardware`-prefixed line
with a `':'` contributes its trimmed second `':'`-segment. -/
def lineVendor (line : String) : Option String :=
  if rustStartsWith line "Hardware" then ((rustSplit ':' line)[1]?).map rustTrim
  else none

/-- The model field a single line contributes: a `model name`- or
`Processor`-prefixed line with a `':'` contributes its trimmed second
`':'`-segment. -/
def lineModel (line : String) : Option String :=
  if rustStartsWith line "model name" || rustStartsWith line "Processor" then
    ((rustSplit ':' line)[1]?).map rustTrim
  else none

/-- The value of a field after scanning all lines: the contribution of the
last line contributing the field, or the default when no line does. -/
def lastField (f : String → Option String) (d : String) (ls : List String) : String :=
  ls.foldl (fun acc l => (f l).getD acc) d

/-! ## Helper lemmas -/

/-- Separator normalization never produces a `'.'` character. -/
theorem normSep_no_dot (f : String) : '.' ∉ (normSep f).data := by
  intro hmem
  simp only [normSep, List.mem_map] at hmem
  obtain ⟨c, _, hc⟩ := hmem
  split at hc
  · exact absurd hc (by decide)
  · next h => exact h hc

/-- Splitting never yields the empty list of segments. -/
theorem splitAuxChar_ne_nil (sep : Char) :
    ∀ (l acc : List Char), splitAuxChar sep l acc ≠ [] := by
  intro l
  induction l with
  | nil => intro acc; simp [splitAuxChar]
  | cons c cs ih =>
    intro acc
    simp only [splitAuxChar]
    split
    · simp
    · exact ih _

/-- A list starting with the pattern `c :: p` starts with `c`. -/
theorem startsWithChars_head {l p : List Char} {c : Char}
    (h : startsWithChars l (c :: p) = true) : ∃ l', l = c :: l' := by
  cases l with
  | nil => simp [startsWithChars] at h
  | cons a l' =>
    simp only [startsWithChars, Bool.and_eq_true, beq_iff_eq] at h
    exact ⟨l', by rw [h.1]⟩

/-- A line recognized as a `Hardware` line is not also recognized as a
model line: the prefixes force different first characters. -/
theorem hardware_line_not_model (line : String)
    (h : rustStartsWith line "Hardware" = true) :
    (rustStartsWith line "model name" || rustStartsWith line "Processor") = false := by
  simp only [rustStartsWith] at h ⊢
  obtain ⟨l', hl⟩ := startsWithChars_head h
  rw [hl]
  have hm : ('H' == 'm') = false := by decide
  have hp : ('H' == 'P') = false := by decide
  simp [startsWithChars, hm, hp]

/-- One loop step updates the two fields independently. -/
theorem cpuinfoStep_eq (vm : String × String) (line : String) :
    cpuinfoStep vm line = ((lineVendor line).getD vm.1, (lineModel line).getD vm.2) := by
  by_cases h1 : rustStartsWith line "Hardware" = true
  · have h2 := hardware_line_not_model line h1
    cases hget : (rustSplit ':' line)[1]? with
    | none => simp [cpuinfoStep, lineVendor, lineModel, h1, h2, hget]
    | some hw => simp [cpuinfoStep, lineVendor, lineModel, h1, h2, hget]
  · rw [Bool.not_eq_true] at h1
    by_cases h2 : (rustStartsWith line "model name" || rustStartsWith line "Processor") = true
    · cases hget : (rustSplit ':' line)[1]? with
      | none => simp [cpuinfoStep, lineVendor, lineModel, h1, h2, hget]
      | some mdl => simp [cpuinfoStep, lineVendor, lineModel, h1, h2, hget]
    · rw [Bool.not_eq_true] at h2
      simp [cpuinfoStep, lineVendor, lineModel, h1, h2]

/-- The paired fold computes, per field, the last contributing line. -/
theorem foldl_cpuinfoStep (ls : List String) :
    ∀ v m : String,
      ls.foldl cpuinfoStep (v, m)
        = (lastField lineVendor v ls, lastField lineModel m ls) := by
  induction ls with
  | nil => intro v m; rfl
  | cons line rest ih =>
    intro v m
    simp only [List.foldl_cons, lastField, cpuinfoStep_eq]
    exact ih _ _

/-- Without a complete environment override, `detect_cpu` on `x86_64`
dispatches to `detect_x86_64`. -/
theorem detect_cpu_no_override (env : EnvVars) (os : String) (cpuid : CpuIdSt)
    (cpuinfoFile : Option String) (h : env.cpuVendor = none ∨ env.cpuFeatures = none) :
    detect_cpu env "x86_64" os cpuid cpuinfoFile = detect_x86_64 cpuid := by
  rcases h with h | h
  · cases hf : env.cpuFeatures <;> simp [detect_cpu, h, hf]
  · cases hv : env.cpuVendor <;> simp [detect_cpu, h, hv]

/-! ## The claims -/

/-- C1: the claim says a non-base priority tag is supported exactly when it
appears in the capability set after separator normalization, so that both
spellings `"sse4.2"` and `"sse4_2"` make the `sse4.2` candidate eligible.
The code normalizes only the capability entries (`f.replace(".", "_")`) and
compares against the raw candidate tag `"sse4.2"`, which still contains a
`'.'`; the normalized entry never contains `'.'`, so the comparison can
never succeed: neither spelling — in fact, no capability set at all — makes
the `sse4.2` candidate eligible. -/
theorem sse42_candidate_never_eligible :
    isSupported "sse4.2" ["sse4.2"] = false ∧
    isSupported "sse4.2" ["sse4_2"] = false ∧
    ∀ cpu_features : List String, isSupported "sse4.2" cpu_features = false := by
  refine ⟨by decide, by decide, ?_⟩
  intro fs
  have h1 : ("sse4.2" == "base") = false := by decide
  simp only [isSupported, h1, Bool.false_or]
  rw [List.any_eq_false]
  intro f _
  simp only [beq_iff_eq]
  intro heq
  have hmem : '.' ∈ (normSep f).data := by rw [heq]; decide
  exact normSep_no_dot f hmem

/-- C3: with both `CPU_VENDOR` and `CPU_FEATURES` set, `detect_cpu` returns
the vendor verbatim, the features split on commas in order, and the model
from `CPU_MODEL` (default `"Unknown"`), for every hardware state — no
probing happens. -/
theorem detect_cpu_env_override (env : EnvVars) (arch os : String)
    (cpuid : CpuIdSt) (cpuinfoFile : Option String) (v f : String)
    (hv : env.cpuVendor = some v) (hf : env.cpuFeatures = some f) :
    detect_cpu env arch os cpuid cpuinfoFile
      = .ok { vendor := v, model := env.cpuModel.getD "Unknown",
              features := rustSplit ',' f } := by
  simp [detect_cpu, hv, hf]

/-- C3 witness: the spec's example, at two distinct hardware states. -/
theorem detect_cpu_env_override_witness :
    detect_cpu ⟨some "TestVendor", some "avx2,avx,sse4.2", none, none, none⟩
        "x86_64" "linux" ⟨none, none, none, none⟩ none
      = .ok { vendor := "TestVendor", model := "Unknown",
              features := ["avx2", "avx", "sse4.2"] } :=
  (detect_cpu_env_override ⟨some "TestVendor", some "avx2,avx,sse4.2", none, none, none⟩
    "x86_64" "linux" ⟨none, none, none, none⟩ none
    "TestVendor" "avx2,avx,sse4.2" rfl rfl).trans rfl

/-- C10: with `CPU_FEATURES` set to the empty string the override still
succeeds and yields the one-element feature list `[""]`; comma-splitting
never yields the empty list; and among the priority tags only `"base"` is
supported by the capability set `[""]`. -/
theorem empty_feature_override :
    (∀ (env : EnvVars) (arch os : String) (cpuid : CpuIdSt)
        (cpuinfoFile : Option String) (v : String),
        env.cpuVendor = some v → env.cpuFeatures = some "" →
        detect_cpu env arch os cpuid cpuinfoFile
          = .ok { vendor := v, model := env.cpuModel.getD "Unknown",
                  features := [""] }) ∧
    (∀ s : String, rustSplit ',' s ≠ []) ∧
    (∀ feature ∈ priority_features, feature ≠ "base" →
        isSupported feature [""] = false) := by
  refine ⟨?_, ?_, by decide⟩
  · intro env arch os cpuid cpuinfoFile v hv hf
    simp [detect_cpu, hv, hf]
    rfl
  · intro s hnil
    rw [rustSplit, List.map_eq_nil_iff] at hnil
    exact splitAuxChar_ne_nil ',' s.data [] hnil

/-- C10 witness: concrete instances of all three parts. -/
theorem empty_feature_override_witness :
    detect_cpu ⟨some "TestVendor", some "", none, none, none⟩
        "x86_64" "linux" ⟨none, none, none, none⟩ none
      = .ok { vendor := "TestVendor", model := "Unknown", features := [""] } ∧
    rustSplit ',' "" ≠ [] ∧
    isSupported "avx2" [""] = false :=
  ⟨empty_feature_override.1 ⟨some "TestVendor", some "", none, none, none⟩
      "x86_64" "linux" ⟨none, none, none, none⟩ none "TestVendor" rfl rfl,
   empty_feature_override.2.1 "",
   empty_feature_override.2.2 "avx2" (by decide) (by decide)⟩

/-- C2: when the capability set contains `"avx2"` and both the avx2 and the
base module files exist in the (existing) library directory, `find_library`
returns the avx2 path — which differs from the base path — because the
priority list is scanned best-to-worst and `"avx2"` is its head. -/
theorem find_library_prefers_avx2 (os arch libDir allocator : String)
    (fileExists : String → Bool) (cpu_features : List String)
    (hmem : "avx2" ∈ cpu_features)
    (havx2 : fileExists (libDir ++ "/" ++ libFileName os arch "avx2" allocator) = true)
    (_hbase : fileExists (libDir ++ "/" ++ libFileName os arch "base" allocator) = true) :
    find_library os arch libDir true fileExists cpu_features allocator
      = .ok (libDir ++ "/" ++ libFileName os arch "avx2" allocator) ∧
    libDir ++ "/" ++ libFileName os arch "avx2" allocator
      ≠ libDir ++ "/" ++ libFileName os arch "base" allocator := by
  constructor
  · have hsup : isSupported "avx2" cpu_features = true := by
      simp only [isSupported, List.any_eq_true, Bool.or_eq_true, beq_iff_eq]
      exact Or.inr ⟨"avx2", hmem, by decide⟩
    simp [find_library, priority_features, searchLibs, hsup, havx2]
  · intro h
    have hd := congrArg String.data h
    by_cases how : (os == "windows") = true
    · simp only [libFileName, how, if_true, String.data_append, List.append_assoc] at hd
      have h1 := List.append_cancel_left hd
      have h2 := List.append_cancel_left h1
      have h3 := List.append_cancel_left h2
      have h4 := List.append_cancel_left h3
      exact absurd (List.append_inj h4 (by decide)).1 (by decide)
    · rw [Bool.not_eq_true] at how
      simp only [libFileName, how, Bool.false_eq_true, if_false, String.data_append,
        List.append_assoc] at hd
      have h1 := List.append_cancel_left hd
      have h2 := List.append_cancel_left h1
      have h3 := List.append_cancel_left h2
      have h4 := List.append_cancel_left h3
      have h5 := List.append_cancel_left h4
      exact absurd (List.append_inj h5 (by decide)).1 (by decide)

/-- C2 witness: a Linux x86_64 directory holding exactly the avx2 and base
modules, a capability set listing avx2. -/
theorem find_library_prefers_avx2_witness :
    find_library "linux" "x86_64" "/opt/app/lib" true
        (fun p => p == "/opt/app/lib/libx86_64_avx2_system.so"
               || p == "/opt/app/lib/libx86_64_base_system.so")
        ["avx2", "avx", "sse4.2"] "system"
      = .ok "/opt/app/lib/libx86_64_avx2_system.so" :=
  ((find_library_prefers_avx2 "linux" "x86_64" "/opt/app/lib" "system"
      (fun p => p == "/opt/app/lib/libx86_64_avx2_system.so"
             || p == "/opt/app/lib/libx86_64_base_system.so")
      ["avx2", "avx", "sse4.2"] (by decide) (by decide) (by decide)).1).trans rfl

/-- C6 counterexample: the claim says the vendor comes from the first
`Hardware`-prefixed line. On a descriptor file with two such lines the code
returns the field of the second (last) one, `"Second"`, not `"First"`. -/
theorem arm_first_line_wins_refuted :
    detect_aarch64 "linux" (some "Hardware : First\nHardware : Second")
      = .ok { vendor := "Second", model := "Unknown ARM Processor",
              features := ["neon"] } ∧
    ("Second" : String) ≠ "First" :=
  ⟨rfl, by decide⟩

/-- C6 amended: when the descriptor file is unreadable or absent the
defaults `"ARM"` / `"Unknown ARM Processor"` are used; when it is readable,
each field is taken from the LAST line matching its prefix (`Hardware` for
vendor; `model name` or `Processor` for model; a matching line without a
`':'` contributes nothing), with the defaults when no line matches. -/
theorem arm_parse_last_line_wins :
    detect_aarch64 "linux" none
      = .ok { vendor := "ARM", model := "Unknown ARM Processor",
              features := ["neon"] } ∧
    ∀ content : String,
      detect_aarch64 "linux" (some content)
        = .ok { vendor := lastField lineVendor "ARM" (rustLines content),
                model := lastField lineModel "Unknown ARM Processor" (rustLines content),
                features := ["neon"] } := by
  refine ⟨rfl, ?_⟩
  intro content
  simp [detect_aarch64, parseCpuinfoLines, foldl_cpuinfoStep]

/-- C8: a missing library directory yields a `PathError` naming it; an
existing directory where no candidate matched yields a `LibraryError`
naming it; the two kinds are distinct for all message texts. -/
theorem find_library_distinct_error_kinds :
    (∀ (os arch libDir allocator : String) (fileExists : String → Bool)
        (cpu_features : List String),
        find_library os arch libDir false fileExists cpu_features allocator
          = .error (.PathError ("Директория библиотек не найдена: " ++ libDir))) ∧
    (∀ (os arch libDir allocator : String) (fileExists : String → Bool)
        (cpu_features : List String),
        searchLibs os arch allocator libDir cpu_features fileExists priority_features
          = none →
        find_library os arch libDir true fileExists cpu_features allocator
          = .error (.LibraryError
              ("Не удалось найти подходящую библиотеку в директории: " ++ libDir))) ∧
    (∀ s t : String, AppError.PathError s ≠ AppError.LibraryError t) := by
  refine ⟨fun _ _ _ _ _ _ => rfl, ?_, fun s t h => AppError.noConfusion h⟩
  intro os arch libDir allocator fileExists cpu_features hnone
  simp [find_library, hnone]

/-- C8 witness: an empty filesystem, both with and without the directory. -/
theorem find_library_distinct_error_kinds_witness :
    find_library "linux" "x86_64" "/opt/app/lib" false (fun _ => false) ["avx2"] "system"
      = .error (.PathError ("Директория библиотек не найдена: " ++ "/opt/app/lib")) ∧
    find_library "linux" "x86_64" "/opt/app/lib" true (fun _ => false) ["avx2"] "system"
      = .error (.LibraryError
          ("Не удалось найти подходящую библиотеку в директории: " ++ "/opt/app/lib")) ∧
    AppError.PathError "a" ≠ AppError.LibraryError "a" :=
  ⟨find_library_distinct_error_kinds.1 "linux" "x86_64" "/opt/app/lib" "system"
      (fun _ => false) ["avx2"],
   find_library_distinct_error_kinds.2.1 "linux" "x86_64" "/opt/app/lib" "system"
      (fun _ => false) ["avx2"] rfl,
   find_library_distinct_error_kinds.2.2 "a" "a"⟩

/-- C4: when detection, path resolution, opening and symbol lookup all
succeed and the entry point returns exit code `n`, the process exits with
`n` and `main` writes no error line; when `run` fails with any core error,
the process exits with the fixed nonzero code `1` and the error's rendered
message is written to the diagnostic stream. -/
theorem exit_code_propagation :
    (∀ (w : World) (args : List String) (cpu_info : CpuInfo)
        (lib_path : String) (n : Int),
        detect_cpu w.env w.arch w.os w.cpuid w.cpuinfoFile = .ok cpu_info →
        resolve_lib_path w cpu_info.features = .ok lib_path →
        w.openLib lib_path = .ok () →
        w.findRunSym lib_path = .ok () →
        w.entry lib_path args = .ok n →
        mainExit w args = (n, none)) ∧
    (∀ (w : World) (args : List String) (e : AppError),
        run w args = .error e →
        mainExit w args = (1, some ("Ошибка: " ++ e.message)) ∧ (1 : Int) ≠ 0) := by
  constructor
  · intro w args cpu_info lib_path n hdet hres hopen hsym hentry
    simp [mainExit, run, hdet, hres, load_and_run, hopen, hsym, hentry]
  · intro w args e hrun
    exact ⟨by simp [mainExit, hrun], by decide⟩

/-- C4 witness: a forced-path world whose entry point returns `3` exits with
`3`; a world whose forced path is missing exits with `1` and the rendered
`PathError` message. -/
theorem exit_code_propagation_witness :
    mainExit sampleWorldOk ["prog"] = (3, none) ∧
    mainExit sampleWorldMissingForced ["prog"]
      = (1, some ("Ошибка: " ++
          (AppError.PathError
            ("Принудительно указанная библиотека не найдена: " ++ "/missing.so")).message)) :=
  ⟨exit_code_propagation.1 sampleWorldOk ["prog"] ⟨"V", "Unknown", ["avx2"]⟩
     "/forced.so" 3 rfl rfl rfl rfl rfl,
   (exit_code_propagation.2 sampleWorldMissingForced ["prog"]
     (.PathError ("Принудительно указанная библиотека не найдена: " ++ "/missing.so"))
     rfl).1⟩

/-- C5: with `FORCE_LIB_PATH` set to `p` the resolved module path depends
only on whether `p` exists — the selector's inputs (library directory,
directory contents, capability set, allocator) are never consulted: an
existing `p` is used directly and a missing `p` is a `PathError` naming it.
Consequently a `run` whose detection succeeded fails with exactly that
`PathError` before any loading. -/
theorem forced_lib_path_bypasses_selection :
    (∀ (w : World) (features : List String) (p : String),
        w.env.forceLibPath = some p →
        resolve_lib_path w features
          = if w.pathExists p then .ok p
            else .error (.PathError
                ("Принудительно указанная библиотека не найдена: " ++ p))) ∧
    (∀ (w : World) (args : List String) (cpu_info : CpuInfo) (p : String),
        w.env.forceLibPath = some p →
        w.pathExists p = false →
        detect_cpu w.env w.arch w.os w.cpuid w.cpuinfoFile = .ok cpu_info →
        run w args
          = .error (.PathError
              ("Принудительно указанная библиотека не найдена: " ++ p))) := by
  constructor
  · intro w features p hp
    simp [resolve_lib_path, hp]
  · intro w args cpu_info p hp hex hdet
    simp [run, hdet, resolve_lib_path, hp, hex]

/-- C5 witness: a world with a missing forced path, applied to both parts. -/
theorem forced_lib_path_bypasses_selection_witness :
    resolve_lib_path sampleWorldMissingForced ["avx2"]
      = .error (.PathError
          ("Принудительно указанная библиотека не найдена: " ++ "/missing.so")) ∧
    run sampleWorldMissingForced ["prog"]
      = .error (.PathError
          ("Принудительно указанная библиотека не найдена: " ++ "/missing.so")) :=
  ⟨forced_lib_path_bypasses_selection.1 sampleWorldMissingForced ["avx2"] "/missing.so" rfl,
   forced_lib_path_bypasses_selection.2 sampleWorldMissingForced ["prog"]
     ⟨"V", "Unknown", ["avx2"]⟩ "/missing.so" rfl rfl rfl⟩

/-- C7: on `x86_64` without a complete environment override, each of the
four CPUID queries being unavailable (independently, whatever the others
hold) makes `detect_cpu` a fatal `CpuDetectionError`; when all four are
available the result is `Ok` for every combination of feature bits, the
tags appearing in the order SSE4.2, AVX, AVX2 and an absent bit merely
omitting its tag. -/
theorem x86_query_failures_are_fatal :
    (∀ (env : EnvVars) (os : String) (cpuid : CpuIdSt) (cpuinfoFile : Option String),
        (env.cpuVendor = none ∨ env.cpuFeatures = none) →
        (cpuid.vendorInfo = none ∨ cpuid.brandString = none ∨
         cpuid.featureInfo = none ∨ cpuid.extendedFeatures = none) →
        ∃ msg, detect_cpu env "x86_64" os cpuid cpuinfoFile
          = .error (.CpuDetectionError msg)) ∧
    (∀ (env : EnvVars) (os : String) (cpuinfoFile : Option String)
        (v b : String) (fi : FeatureInfo) (ef : ExtendedFeatures),
        (env.cpuVendor = none ∨ env.cpuFeatures = none) →
        detect_cpu env "x86_64" os ⟨some v, some b, some fi, some ef⟩ cpuinfoFile
          = .ok { vendor := v, model := b,
                  features := (if fi.has_sse42 then ["sse4.2"] else []) ++
                              (if fi.has_avx then ["avx"] else []) ++
                              (if ef.has_avx2 then ["avx2"] else []) }) := by
  constructor
  · intro env os cpuid cpuinfoFile henv hq
    rw [detect_cpu_no_override env os cpuid cpuinfoFile henv]
    obtain ⟨vi, bs, fi, ef⟩ := cpuid
    rcases hq with h | h | h | h
    · cases h; exact ⟨_, rfl⟩
    · cases h; cases vi <;> exact ⟨_, rfl⟩
    · cases h; cases vi <;> cases bs <;> exact ⟨_, rfl⟩
    · cases h; cases vi <;> cases bs <;> cases fi <;> exact ⟨_, rfl⟩
  · intro env os cpuinfoFile v b fi ef henv
    rw [detect_cpu_no_override env os _ cpuinfoFile henv]
    rfl

/-- C7 witness: an unset override, one unavailable query (the extended
feature info) is fatal; all queries available with SSE4.2 and AVX2 set but
AVX clear yields exactly `["sse4.2", "avx2"]`. -/
theorem x86_query_failures_are_fatal_witness :
    (∃ msg, detect_cpu ⟨none, none, none, none, none⟩ "x86_64" "linux"
        ⟨some "GenuineIntel", some "TestCPU", some ⟨true, true⟩, none⟩ none
      = .error (.CpuDetectionError msg)) ∧
    detect_cpu ⟨none, none, none, none, none⟩ "x86_64" "linux"
        ⟨some "GenuineIntel", some "TestCPU", some ⟨true, false⟩, some ⟨true⟩⟩ none
      = .ok { vendor := "GenuineIntel", model := "TestCPU",
              features := ["sse4.2", "avx2"] } :=
  ⟨x86_query_failures_are_fatal.1 ⟨none, none, none, none, none⟩ "linux"
     ⟨some "GenuineIntel", some "TestCPU", some ⟨true, true⟩, none⟩ none
     (Or.inl rfl) (Or.inr (Or.inr (Or.inr rfl))),
   (x86_query_failures_are_fatal.2 ⟨none, none, none, none, none⟩ "linux" none
     "GenuineIntel" "TestCPU" ⟨true, false⟩ ⟨true⟩ (Or.inl rfl)).trans rfl⟩

/-- C9: a path whose module cannot be opened yields a `LibraryError` naming
the path and carrying the loader's message; a module that opens but lacks
the exported `run` symbol yields a `FunctionCallError` — for every path,
argument list and ambient loader behavior. -/
theorem load_and_run_error_kinds :
    (∀ (openLib findRunSym : String → Except String Unit)
        (entry : String → List String → Except String Int)
        (lib_path : String) (args : List String) (e : String),
        openLib lib_path = .error e →
        load_and_run openLib findRunSym entry lib_path args
          = .error (.LibraryError
              ("Не удалось загрузить библиотеку " ++ lib_path ++ ": " ++ e))) ∧
    (∀ (openLib findRunSym : String → Except String Unit)
        (entry : String → List String → Except String Int)
        (lib_path : String) (args : List String) (e : String),
        openLib lib_path = .ok () →
        findRunSym lib_path = .error e →
        load_and_run openLib findRunSym entry lib_path args
          = .error (.FunctionCallError
              ("Не удалось найти функцию run в библиотеке: " ++ e))) := by
  constructor
  · intro openLib findRunSym entry lib_path args e hopen
    simp [load_and_run, hopen]
  · intro openLib findRunSym entry lib_path args e hopen hsym
    simp [load_and_run, hopen, hsym]

/-- C9 witness: a loader that cannot open anything, and one that opens but
never finds the symbol. -/
theorem load_and_run_error_kinds_witness :
    load_and_run (fun _ => .error "no such file") (fun _ => .ok ())
        (fun _ _ => .ok 0) "/nonexistent.so" ["prog"]
      = .error (.LibraryError
          ("Не удалось загрузить библиотеку " ++ "/nonexistent.so" ++ ": " ++ "no such file")) ∧
    load_and_run (fun _ => .ok ()) (fun _ => .error "symbol not found")
        (fun _ _ => .ok 0) "/empty.so" ["prog"]
      = .error (.FunctionCallError
          ("Не удалось найти функцию run в библиотеке: " ++ "symbol not found")) :=
  ⟨load_and_run_error_kinds.1 (fun _ => .error "no such file") (fun _ => .ok ())
     (fun _ _ => .ok 0) "/nonexistent.so" ["prog"] "no such file" rfl,
   load_and_run_error_kinds.2 (fun _ => .ok ()) (fun _ => .error "symbol not found")
     (fun _ _ => .ok 0) "/empty.so" ["prog"] "symbol not found" rfl rfl⟩

end CpuOptimizedApp
